import Mathlib

/-!
Verification of `src/ui/camera_stream_ui.py` (Percept3D camera stream UI).

The file shallowly embeds the pure logic of the `CameraStreamUI` class:
pixel frames and the channel filter (`apply_filter`, the dispatch in
`draw_processed_stream`), the header button geometry (`draw_header`,
`get_button_clicked`, `mouse_callback`), the session layout computed in
`run`, the stream-placement arithmetic of `draw_original_stream` /
`draw_processed_stream` together with a model of the numpy slice
assignment, the FPS update, and the control flow of `run`.

Machine pixels (uint8) are modelled as `Nat` (no claim involves channel
overflow); Python floats are modelled as exact rationals `ℚ`; Python `//`
on possibly-negative integers is `Int.fdiv` (floor division).
-/

namespace Percept3D

/-- A captured image: height, width, and a pixel function giving the value of
each of the three colour channels.  OpenCV frames are BGR, so channel index
0 is blue, 1 is green, 2 is red. -/
structure Frame where
  h : Nat
  w : Nat
  pix : Nat → Nat → Fin 3 → Nat

/-- Embeds `CameraStreamUI.apply_filter` (source lines 27-43):
`filtered = np.zeros_like(frame)` followed by copying the single channel
selected by the string `color` ('red' → index 2, 'green' → 1, 'blue' → 0);
any other string leaves the all-zero frame. -/
def apply_filter (frame : Frame) (color : String) : Frame where
  h := frame.h
  w := frame.w
  pix i j c :=
    if color = "red" then (if c = (2 : Fin 3) then frame.pix i j c else 0)
    else if color = "green" then (if c = (1 : Fin 3) then frame.pix i j c else 0)
    else if color = "blue" then (if c = (0 : Fin 3) then frame.pix i j c else 0)
    else 0

/-- Python truthiness of an optional string: `None` and the empty string are
falsy, every other string is truthy. -/
def truthy : Option String → Bool
  | none => false
  | some s => s != ""

/-- Embeds the filter dispatch of `draw_processed_stream` (source lines
156-159): `apply_filter(cam_frame, self.selected_filter)` when the selection
is truthy, otherwise `cam_frame.copy()` (a pixel-identical frame). -/
def processed_stream_frame (selected_filter : Option String) (cam_frame : Frame) : Frame :=
  if truthy selected_filter then apply_filter cam_frame (selected_filter.getD "")
  else cam_frame

/-- The three colour-channel selections the UI offers. -/
inductive Channel
  | red
  | green
  | blue
deriving DecidableEq

/-- The string the source uses for each channel selection. -/
def Channel.name : Channel → String
  | .red => "red"
  | .green => "green"
  | .blue => "blue"

/-- The BGR channel index the source isolates for each selection
(`filtered[:, :, 2]` for red, `[:, :, 1]` for green, `[:, :, 0]` for blue). -/
def Channel.idx : Channel → Fin 3
  | .red => 2
  | .green => 1
  | .blue => 0

/-- A small concrete frame used to instantiate universally quantified
theorems on explicit inputs. -/
def test_frame : Frame where
  h := 2
  w := 3
  pix i j c := i + 10 * j + 100 * (c : Nat) + 1

/-- C2: for every frame `F` and selected channel `C` in {red, green, blue},
`apply_filter` produces a frame of identical dimensions in which channel
`C.idx` retains `F`'s values and every other channel is zero.  The embedding
is pure: the result is a fresh `Frame` value computed from `F` (mirroring
`np.zeros_like`, which allocates a new array), so the input frame is not
mutated. -/
theorem apply_filter_isolates_channel (F : Frame) (C : Channel) (i j : Nat) (c : Fin 3) :
    (apply_filter F C.name).h = F.h ∧ (apply_filter F C.name).w = F.w ∧
    (apply_filter F C.name).pix i j C.idx = F.pix i j C.idx ∧
    (c ≠ C.idx → (apply_filter F C.name).pix i j c = 0) := by
  cases C <;>
    refine ⟨rfl, rfl, ?_, fun hc => ?_⟩ <;>
    simp_all +decide [apply_filter, Channel.name, Channel.idx]

/-- Witness for `apply_filter_isolates_channel`: the green filter applied to
the concrete `test_frame` keeps the green channel at pixel (0,0) and zeroes
the blue channel there. -/
theorem apply_filter_isolates_channel_witness :
    ((0 : Fin 3) ≠ Channel.green.idx) ∧
    (apply_filter test_frame Channel.green.name).pix 0 0 0 = 0 ∧
    (apply_filter test_frame Channel.green.name).pix 0 0 Channel.green.idx
      = test_frame.pix 0 0 Channel.green.idx :=
  ⟨by decide,
   (apply_filter_isolates_channel test_frame Channel.green 0 0 0).2.2.2 (by decide),
   (apply_filter_isolates_channel test_frame Channel.green 0 0 0).2.2.1⟩

/-- C3: with selection `None`, the processed-stream stage returns a frame
pixel-identical to the input (the source takes the `cam_frame.copy()`
branch, and a copy is pixel-identical). -/
theorem processed_stream_frame_none_id (F : Frame) :
    processed_stream_frame none F = F := rfl

/-- Constructor constant `self.header_height = 80` (source line 13), the
nominal header band used by `get_button_clicked` and `mouse_callback`. -/
def header_height : Int := 80

/-- Constructor constant `self.button_width = 200` (source line 14). -/
def button_width : Int := 200

/-- Constructor constant `self.button_height = 50` (source line 15). -/
def button_height : Int := 50

/-- Constructor constant `self.button_margin = 30` (source line 16). -/
def button_margin : Int := 30

/-- Width of the three-button group:
`3 * self.button_width + 2 * self.button_margin` (source lines 57 and 98). -/
def total_buttons_width : Int := 3 * button_width + 2 * button_margin

/-- The left edge of the centred button group:
`start_x = (panel_width - total_buttons_width) // 2` (Python floor
division). -/
def buttons_start_x (panel_width : Int) : Int :=
  Int.fdiv (panel_width - total_buttons_width) 2

/-- The x coordinate of button `i`:
`bx = start_x + i * (self.button_width + self.button_margin)`. -/
def button_x (panel_width : Int) (i : Nat) : Int :=
  buttons_start_x panel_width + i * (button_width + button_margin)

/-- The y coordinate `get_button_clicked` tests against:
`by = (self.header_height - self.button_height) // 2` — note this uses the
fixed constructor constant 80, not the header height of the live layout. -/
def button_y_hit : Int := Int.fdiv (header_height - button_height) 2

/-- Embeds `CameraStreamUI.get_button_clicked` (source lines 87-105): the
loop over ['red', 'green', 'blue'] unrolled; each test is
`bx <= x <= bx + button_width and by <= y <= by + button_height`, first
match wins. -/
def get_button_clicked (x y panel_width : Int) : Option String :=
  if button_x panel_width 0 ≤ x ∧ x ≤ button_x panel_width 0 + button_width ∧
      button_y_hit ≤ y ∧ y ≤ button_y_hit + button_height then some "red"
  else if button_x panel_width 1 ≤ x ∧ x ≤ button_x panel_width 1 + button_width ∧
      button_y_hit ≤ y ∧ y ≤ button_y_hit + button_height then some "green"
  else if button_x panel_width 2 ≤ x ∧ x ≤ button_x panel_width 2 + button_width ∧
      button_y_hit ≤ y ∧ y ≤ button_y_hit + button_height then some "blue"
  else none

/-- OpenCV constant `cv2.EVENT_LBUTTONDOWN`. -/
def EVENT_LBUTTONDOWN : Nat := 1

/-- Embeds `CameraStreamUI.mouse_callback` (source lines 107-121) as a
transition on the `selected_filter` state: on a left-button-down event with
`y < self.header_height`, look up the clicked button (using `panel_width`
from `param`, defaulting to 1920) and, if the result is truthy, store it;
in every other case the selection is unchanged. -/
def mouse_callback (selected_filter : Option String) (event : Nat) (x y : Int)
    (param : Option Int) : Option String :=
  if event = EVENT_LBUTTONDOWN ∧ y < header_height then
    let panel_width := param.getD 1920
    let clicked := get_button_clicked x y panel_width
    if truthy clicked then clicked else selected_filter
  else selected_filter

/-- An integer rectangle `(x, y, w, h)` as the source builds for each button
(`btn_rect = (x_btn, y_btn, self.button_width, self.button_height)`). -/
structure RectI where
  x : Int
  y : Int
  w : Int
  h : Int

/-- Embeds the button geometry of `draw_header` (source lines 57-65) for a
header panel of size `(w, h)`: `start_x = (panel_width - total_buttons_width)
// 2`, `y_btn = (h - self.button_height) // 2`, and button `i` is the
rectangle `(start_x + i * (button_width + button_margin), y_btn,
button_width, button_height)`.  The vertical centring uses the panel height
`h` that `run` passes (the computed layout header height). -/
def draw_header_button_rect (w h : Int) (i : Nat) : RectI where
  x := buttons_start_x w + i * (button_width + button_margin)
  y := Int.fdiv (h - button_height) 2
  w := button_width
  h := button_height

/-- Membership in a rectangle with inclusive edges, as both
`cv2.rectangle` corners and `get_button_clicked`'s comparisons are
inclusive. -/
def point_in_rect (px py : Int) (r : RectI) : Bool :=
  decide (r.x ≤ px ∧ px ≤ r.x + r.w ∧ r.y ≤ py ∧ py ≤ r.y + r.h)

/-- The header height `run` computes: `header_height = int(0.10 * screen_h)`
(source line 202).  For screen heights in the practical range the float
product `0.10 * screen_h` rounds to within half an ulp of `screen_h / 10`,
so `int` of it is the floor `screen_h / 10`. -/
def layout_header_height (screen_h : Nat) : Nat := screen_h / 10

/-- C1 (code bug): at screen resolution 2560 x 1440, `run` draws the header
with height `layout_header_height 1440 = 144`, so the drawn Green button
(index 1) is the rectangle x in [1180, 1380], y in [47, 97] and its exact
centre is (1280, 72).  That click passes `mouse_callback`'s band test
(72 < 80) but `get_button_clicked` centres the buttons vertically in the
fixed 80-pixel constructor header (band y in [15, 65]), so it returns no
match and the selection stays `none` — hit-testing geometry diverges from
rendering geometry. -/
theorem hit_test_misses_drawn_green_button :
    point_in_rect 1280 72
      (draw_header_button_rect 2560 ((layout_header_height 1440 : Nat) : Int) 1) = true ∧
    (72 : Int) < header_height ∧
    get_button_clicked 1280 72 2560 = none ∧
    mouse_callback none EVENT_LBUTTONDOWN 1280 72 (some 2560) = none := by
  decide

/-- The selected-filter values the spec allows: `None`, 'red', 'green' or
'blue'. -/
def valid_filter_selection (sel : Option String) : Prop :=
  sel = none ∨ sel = some "red" ∨ sel = some "green" ∨ sel = some "blue"

/-- Helper: `get_button_clicked` only ever returns `none`, 'red', 'green'
or 'blue'. -/
theorem get_button_clicked_values (x y panel_width : Int) :
    valid_filter_selection (get_button_clicked x y panel_width) := by
  unfold get_button_clicked valid_filter_selection
  split_ifs <;> simp

/-- C10: the selection state is initialised to `None` and every mouse
callback transition preserves membership in {None, 'red', 'green', 'blue'},
since the callback either keeps the old selection or stores a truthy value
returned by `get_button_clicked`. -/
theorem selected_filter_invariant :
    valid_filter_selection none ∧
    ∀ (sel : Option String) (event : Nat) (x y : Int) (param : Option Int),
      valid_filter_selection sel →
      valid_filter_selection (mouse_callback sel event x y param) := by
  refine ⟨Or.inl rfl, fun sel event x y param hsel => ?_⟩
  unfold mouse_callback
  split_ifs with h1
  · rcases get_button_clicked_values x y (param.getD 1920) with h | h | h | h <;>
      simp +decide [h, truthy, valid_filter_selection]
    exact hsel
  · exact hsel

/-- Witness for `selected_filter_invariant`: starting from the initial
`none` selection, a left-button-down at (960, 40) on a 1920-wide panel
leaves the selection in the valid set. -/
theorem selected_filter_invariant_witness :
    valid_filter_selection (mouse_callback none EVENT_LBUTTONDOWN 960 40 (some 1920)) :=
  selected_filter_invariant.2 none EVENT_LBUTTONDOWN 960 40 (some 1920) (Or.inl rfl)

/-- A rectangle `(x, y, w, h)` in natural-number canvas coordinates, as the
layout tuples `run` builds (source lines 207-210). -/
structure RectN where
  x : Nat
  y : Nat
  w : Nat
  h : Nat

/-- The footer height `run` computes: `footer_height = int(0.10 * screen_h)`
(source line 203), same value as the layout header height. -/
def layout_footer_height (screen_h : Nat) : Nat := screen_h / 10

/-- `stream_panel_height = screen_h - header_height - footer_height`
(source line 204). -/
def stream_panel_height (screen_h : Nat) : Nat :=
  screen_h - layout_header_height screen_h - layout_footer_height screen_h

/-- `stream_panel_width = screen_w // 2` (source line 205). -/
def stream_panel_width (screen_w : Nat) : Nat := screen_w / 2

/-- `header_rect = (0, 0, screen_w, header_height)` (source line 207). -/
def header_rect (screen_w screen_h : Nat) : RectN :=
  ⟨0, 0, screen_w, layout_header_height screen_h⟩

/-- `footer_rect = (0, screen_h - footer_height, screen_w, footer_height)`
(source line 208). -/
def footer_rect (screen_w screen_h : Nat) : RectN :=
  ⟨0, screen_h - layout_footer_height screen_h, screen_w, layout_footer_height screen_h⟩

/-- `orig_rect = (0, header_height, stream_panel_width,
stream_panel_height)` (source line 209). -/
def orig_rect (screen_w screen_h : Nat) : RectN :=
  ⟨0, layout_header_height screen_h, stream_panel_width screen_w, stream_panel_height screen_h⟩

/-- `proc_rect = (stream_panel_width, header_height, stream_panel_width,
stream_panel_height)` (source line 210). -/
def proc_rect (screen_w screen_h : Nat) : RectN :=
  ⟨stream_panel_width screen_w, layout_header_height screen_h,
   stream_panel_width screen_w, stream_panel_height screen_h⟩

/-- C4 counterexample: at an odd screen width (1921 x 1080) the two stream
panels are each `1921 // 2 = 960` wide, so their widths sum to 1920, not to
the full canvas width — the claimed exact partition fails. -/
theorem layout_width_partition_fails_odd :
    (orig_rect 1921 1080).w + (proc_rect 1921 1080).w ≠ 1921 := by decide

/-- C4 amended: for every resolution, header, stream-panel and footer
heights sum exactly to `screen_h`, while the two panel widths sum to
`2 * (screen_w // 2) = screen_w - screen_w % 2`, which equals `screen_w`
exactly when `screen_w` is even. -/
theorem layout_partition (screen_w screen_h : Nat) :
    (header_rect screen_w screen_h).h + (orig_rect screen_w screen_h).h +
        (footer_rect screen_w screen_h).h = screen_h ∧
    (orig_rect screen_w screen_h).w + (proc_rect screen_w screen_h).w
        = screen_w - screen_w % 2 := by
  simp only [header_rect, footer_rect, orig_rect, proc_rect, layout_header_height,
    layout_footer_height, stream_panel_height, stream_panel_width]
  omega

/-- Result of the placement arithmetic shared by `draw_original_stream` and
`draw_processed_stream` (both return `x1, y1, display_h, display_w`). -/
structure Placement where
  x1 : Int
  y1 : Int
  display_h : Nat
  display_w : Nat

/-- Embeds the placement arithmetic of `draw_original_stream` (source lines
137-148; `draw_processed_stream` repeats it verbatim): the target rectangle
centre `(x + w // 2, y + h // 2)`, the scaled size
`display_w = int(w_f * ratio)`, `display_h = int(display_w / aspect)` with
`aspect = w_f / h_f`, and the top-left corner
`(xc - display_w // 2, yc - display_h // 2)` of the written region.  Python
floats are modelled as exact rationals; `int` truncation is `Int.floor`
(the source's ratio 1.2 and all sizes are nonnegative, where the two
agree), clamped to `Nat` by `toNat`. -/
def draw_stream_placement (x y w h : Nat) (frame_w frame_h : Nat) (ratio : ℚ) : Placement :=
  let xc : Nat := x + w / 2
  let yc : Nat := y + h / 2
  let display_w : Nat := (Int.floor ((frame_w : ℚ) * ratio)).toNat
  let aspect : ℚ := (frame_w : ℚ) / (frame_h : ℚ)
  let display_h : Nat := (Int.floor ((display_w : ℚ) / aspect)).toNat
  ⟨(xc : Int) - ((display_w / 2 : Nat) : Int),
   (yc : Int) - ((display_h / 2 : Nat) : Int),
   display_h, display_w⟩

/-- C6: for every target rectangle, frame size and ratio, the centre of the
placed image coincides with the target rectangle's own centre to within one
pixel.  Coordinates are doubled to stay in integers: `2 * x1 + display_w`
is twice the image's x centre and `2 * x + w` twice the rectangle's, and
their difference is at most 2 (i.e. the centres differ by at most one
pixel); likewise vertically. -/
theorem draw_stream_placement_centered (x y w h frame_w frame_h : Nat) (ratio : ℚ) :
    |2 * (draw_stream_placement x y w h frame_w frame_h ratio).x1 +
        ((draw_stream_placement x y w h frame_w frame_h ratio).display_w : Int) -
        (2 * (x : Int) + (w : Int))| ≤ 2 ∧
    |2 * (draw_stream_placement x y w h frame_w frame_h ratio).y1 +
        ((draw_stream_placement x y w h frame_w frame_h ratio).display_h : Int) -
        (2 * (y : Int) + (h : Int))| ≤ 2 := by
  simp only [draw_stream_placement, abs_le]
  constructor <;> constructor <;> omega

/-- Normalisation of one slice bound on an axis of length `n`, as CPython's
slice adjustment performs it for step 1: a negative index has `n` added and
is then clamped below at 0; a nonnegative index is clamped above at `n`. -/
def npIndex (n : Nat) (i : Int) : Int :=
  if i < 0 then (if i + n < 0 then 0 else i + n)
  else (if (n : Int) < i then n else i)

/-- The number of elements selected by the basic slice `a[lo:hi]` on an axis
of length `n`. -/
def npSliceLen (n : Nat) (lo hi : Int) : Nat :=
  (npIndex n hi - npIndex n lo).toNat

/-- Whether the assignment `panel[y1:y1+src_h, x1:x1+src_w] = resized`
(source lines 148 and 171) succeeds for a canvas of `rows x cols` pixels and
a source image of `src_h x src_w` pixels: numpy never reads or writes
outside the canvas — it requires the source shape to broadcast onto the
selected region's shape (equal extent, or a source extent of 1), and raises
a `ValueError` otherwise. -/
def np_slice_assign_ok (rows cols : Nat) (y1 x1 : Int) (src_h src_w : Nat) : Bool :=
  decide ((npSliceLen rows y1 (y1 + src_h) = src_h ∨ src_h = 1) ∧
    (npSliceLen cols x1 (x1 + src_w) = src_w ∨ src_w = 1))

/-- C5 counterexample: on an 800 x 600 screen the original-stream rectangle
is `(0, 60, 400, 480)`; a 640 x 480 frame at the default ratio 1.2 scales to
768 x 576, giving the written region the top-left corner x1 = -184 — the
scaled image exceeds the canvas bounds — and the slice assignment onto the
600 x 800 canvas fails (the selected region is empty, so the shapes do not
match) instead of clipping the image. -/
theorem overscaled_write_not_clipped :
    (draw_stream_placement 0 60 400 480 640 480 (6 / 5)).x1 < 0 ∧
    np_slice_assign_ok 600 800
      (draw_stream_placement 0 60 400 480 640 480 (6 / 5)).y1
      (draw_stream_placement 0 60 400 480 640 480 (6 / 5)).x1
      (draw_stream_placement 0 60 400 480 640 480 (6 / 5)).display_h
      (draw_stream_placement 0 60 400 480 640 480 (6 / 5)).display_w = false := by
  have hp : draw_stream_placement 0 60 400 480 640 480 (6 / 5) = ⟨-184, 12, 576, 768⟩ := by
    simp only [draw_stream_placement]
    norm_num
    have h7 : Int.toNat 768 = 768 := rfl
    rw [h7]
    norm_num
    decide
  rw [hp]
  exact ⟨by decide, by decide⟩

/-- Helper for the slice model: on an axis of positive length `n`, a slice
of requested positive extent `len` whose upper bound `s + len` is positive
selects exactly `len` elements precisely when it lies within the axis. -/
theorem npSliceLen_eq_iff (n len : Nat) (s : Int) (hn : 1 ≤ n) (hlen : 1 ≤ len)
    (hpos : 1 ≤ s + len) :
    npSliceLen n s (s + len) = len ↔ (0 ≤ s ∧ s + (len : Int) ≤ n) := by
  unfold npSliceLen npIndex
  split_ifs <;> omega

/-- C5 amended: the source performs no bounds check and no clipping.  For a
placement computed the compositor's way (top-left corner `centre - size//2`)
with a source image at least 2 pixels in each dimension and a nonempty
canvas, the numpy slice assignment succeeds exactly when the written region
lies entirely inside the canvas; when the scaled image exceeds the canvas
bounds the assignment fails (a shape-mismatch error aborting the frame)
rather than writing out of range or clipping. -/
theorem np_write_succeeds_iff_in_bounds (rows cols xc yc src_h src_w : Nat)
    (hrows : 1 ≤ rows) (hcols : 1 ≤ cols) (hh : 2 ≤ src_h) (hw : 2 ≤ src_w) :
    np_slice_assign_ok rows cols
        ((yc : Int) - ((src_h / 2 : Nat) : Int)) ((xc : Int) - ((src_w / 2 : Nat) : Int))
        src_h src_w = true ↔
      (0 ≤ (yc : Int) - ((src_h / 2 : Nat) : Int) ∧
        (yc : Int) - ((src_h / 2 : Nat) : Int) + src_h ≤ rows ∧
        0 ≤ (xc : Int) - ((src_w / 2 : Nat) : Int) ∧
        (xc : Int) - ((src_w / 2 : Nat) : Int) + src_w ≤ cols) := by
  have hy := npSliceLen_eq_iff rows src_h ((yc : Int) - ((src_h / 2 : Nat) : Int))
    hrows (by omega) (by omega)
  have hx := npSliceLen_eq_iff cols src_w ((xc : Int) - ((src_w / 2 : Nat) : Int))
    hcols (by omega) (by omega)
  simp only [np_slice_assign_ok, decide_eq_true_eq, hy, hx]
  omega

/-- Witness for `np_write_succeeds_iff_in_bounds`: a 576 x 768 image centred
at (400, 300) fits the 600 x 800 canvas, and the slice assignment succeeds. -/
theorem np_write_succeeds_iff_in_bounds_witness :
    np_slice_assign_ok 600 800
      ((300 : Int) - ((576 / 2 : Nat) : Int)) ((400 : Int) - ((768 / 2 : Nat) : Int))
      576 768 = true :=
  (np_write_succeeds_iff_in_bounds 600 800 400 300 576 768
    (by decide) (by decide) (by decide) (by decide)).mpr (by decide)

/-- The FPS-related state of the session: `self.prev_time` and `self.fps`.
Wall-clock times are modelled as exact rationals. -/
structure FpsState where
  prev_time : ℚ
  fps : ℚ

/-- Embeds `CameraStreamUI.update_fps` (source lines 19-25):
`self.fps = 1 / (current_time - self.prev_time)` followed by
`self.prev_time = current_time`. -/
def update_fps (s : FpsState) (current_time : ℚ) : FpsState where
  prev_time := current_time
  fps := 1 / (current_time - s.prev_time)

/-- C9: `update_fps` sets the estimate to the reciprocal of the delta
between the two most recent ticks — two ticks 1 second apart give 1, ticks
1/10 second apart give 10 (exactly, floats being modelled as exact
rationals) — and the state it keeps is only the latest timestamp. -/
theorem update_fps_reciprocal (s : FpsState) :
    (∀ t : ℚ, (update_fps s t).fps = 1 / (t - s.prev_time)) ∧
    (update_fps s (s.prev_time + 1)).fps = 1 ∧
    (update_fps s (s.prev_time + 1 / 10)).fps = 10 ∧
    (∀ t : ℚ, (update_fps s t).prev_time = t) := by
  refine ⟨fun t => rfl, ?_, ?_, fun t => rfl⟩ <;>
    simp [update_fps, add_sub_cancel_left]

/-- The external behaviour `run` interacts with: whether
`cv2.VideoCapture(camera_index)` opened, whether the i-th `cap.read()`
succeeds (read 0 is the initial aspect-ratio read, reads 1, 2, … happen in
the loop), and whether `cv2.waitKey(1)` reports the q key on loop
iteration i. -/
structure CaptureEnv where
  opened : Bool
  read_ok : Nat → Bool
  quit_pressed : Nat → Bool

/-- The externally observable outcome of `run`: which error messages were
printed, whether `cv2.namedWindow` ran, how many frames were composed and
shown, and whether `cap.release()` and `cv2.destroyAllWindows()` ran. -/
structure RunResult where
  printed_open_error : Bool
  printed_read_error : Bool
  window_created : Bool
  frames_shown : Nat
  cap_released : Bool
  windows_destroyed : Bool
deriving DecidableEq

/-- The `while True` loop of `run` (source lines 212-229), with `fuel`
bounding the number of iterations modelled: read a frame (on failure print
the read error and break, reaching the cleanup at lines 230-231), otherwise
compose and show the frame and sample the quit key (on quit break to the
same cleanup). `none` means the fuel ran out with the loop still running. -/
def run_loop (env : CaptureEnv) (i frames_shown fuel : Nat) : Option RunResult :=
  match fuel with
  | 0 => none
  | fuel + 1 =>
    if env.read_ok i then
      if env.quit_pressed i then
        some ⟨false, false, true, frames_shown + 1, true, true⟩
      else
        run_loop env (i + 1) (frames_shown + 1) fuel
    else
      some ⟨false, true, true, frames_shown, true, true⟩

/-- Embeds the control flow of `CameraStreamUI.run` (source lines 182-231).
If the capture did not open, print the open error and return — before any
window is created and without releasing the capture (lines 187-189).  Then
create the fullscreen window and do the initial read; if it fails, print
the read error and return — skipping the cleanup at lines 230-231.
Otherwise compute the layout, register the mouse callback and enter the
frame loop; only exits from the loop reach `cap.release()` and
`cv2.destroyAllWindows()`. -/
def run (env : CaptureEnv) (fuel : Nat) : Option RunResult :=
  if env.opened then
    if env.read_ok 0 then
      run_loop env 1 0 fuel
    else
      some ⟨false, true, true, 0, false, false⟩
  else
    some ⟨true, false, false, 0, false, false⟩

/-- C8: whenever the capture source fails to open, `run` prints the open
error and returns immediately: no window is created, no frame is shown (the
`Running` loop is never entered, so no read error is ever printed), and it
does so for any fuel bound. -/
theorem run_open_failure_no_window (env : CaptureEnv) (fuel : Nat)
    (hopen : env.opened = false) :
    run env fuel = some ⟨true, false, false, 0, false, false⟩ := by
  simp [run, hopen]

/-- Witness for `run_open_failure_no_window`: a session whose camera does
not open (all reads would succeed, no quit is pressed) reports the failure
and creates no window. -/
theorem run_open_failure_no_window_witness :
    run ⟨false, fun _ => true, fun _ => false⟩ 5
      = some ⟨true, false, false, 0, false, false⟩ :=
  run_open_failure_no_window ⟨false, fun _ => true, fun _ => false⟩ 5 rfl

/-- C7 (code bug): a session whose camera opens but whose very first frame
read fails is an error exit on which the claimed unconditional cleanup does
not run: the fullscreen window has already been created, yet `run` returns
with the capture never released and the window never destroyed (the early
`return` at source line 196 skips the cleanup at lines 230-231).  For
contrast, the same environment with the first read succeeding and the quit
key pressed on iteration 1 — a graceful exit from the loop — does release
the capture and destroy the window. -/
theorem first_read_failure_skips_cleanup :
    run ⟨true, fun _ => false, fun _ => false⟩ 5
      = some ⟨false, true, true, 0, false, false⟩ ∧
    run ⟨true, fun _ => true, fun _ => true⟩ 5
      = some ⟨false, false, true, 1, true, true⟩ := by
  constructor <;> rfl

end Percept3D
